import Mathlib

/-!
Verification of the `uv-python-template` repository's initialization and
scaffolding logic (`scripts/init.py` and `cli/src/pypkgkit/scaffold.py`).

Strings are embedded as `List Char`; Python `str.replace`, substring tests
(`in`), case transforms and the name-validation regex are translated
directly from the source.  All definitions are executable.
-/

namespace UvTemplate

/-- Strings from the Python source are embedded as lists of characters. -/
abbrev Str := List Char

/-- Prefix test: `isPre p s` holds when `p` is a prefix of `s` (used to find match positions,
the way CPython's `str.replace` scans left to right). -/
def isPre : Str → Str → Bool
  | [], _ => true
  | _ :: _, [] => false
  | p :: ps, c :: cs => p = c && isPre ps cs

/-- Python's substring test `pat in s`. -/
def containsSub (pat : Str) : Str → Bool
  | [] => pat = []
  | c :: rest => isPre pat (c :: rest) || containsSub pat rest

/-- Fuel-indexed scanner behind `replaceList`; the fuel (an upper bound
on the string length, consumed once per step) makes the recursion
structural so that the function reduces definitionally. -/
def replaceFuel (pat rep : Str) : Nat → Str → Str
  | _, [] => []
  | 0, s => s
  | fuel + 1, c :: rest =>
    if pat ≠ [] ∧ isPre pat (c :: rest) = true then
      rep ++ replaceFuel pat rep fuel (List.drop (pat.length - 1) rest)
    else
      c :: replaceFuel pat rep fuel rest

/-- Python's `s.replace(pat, rep)` for a non-empty `pat`: scan left to
right, replace each non-overlapping occurrence, never rescanning the
replacement text.  (The source only ever calls `replace` with fixed
non-empty literals, so the empty-pattern behaviour is irrelevant; here an
empty pattern leaves the string unchanged.) -/
def replaceList (pat rep s : Str) : Str := replaceFuel pat rep s.length s

/-- Homomorphic per-character expansion; `replaceList` with a single-char
pattern is an instance of it. -/
def expand (f : Char → Str) : Str → Str
  | [] => []
  | c :: rest => f c ++ expand f rest

/-- Embedding of `scripts/init.py::to_snake`: `name.replace('-', '_')`. -/
def to_snake (name : Str) : Str := replaceList ['-'] ['_'] name

/-- Embedding of `scripts/init.py::to_kebab`: `name.replace('_', '-')`. -/
def to_kebab (name : Str) : Str := replaceList ['_'] ['-'] name

/-- Python `str.title()` restricted to ASCII: an alphabetic character is
uppercased when it starts a word (previous character non-alphabetic) and
lowercased otherwise; the Boolean argument tracks "at a word start". -/
def pyTitle : Bool → Str → Str
  | _, [] => []
  | start, c :: rest =>
    if c.isAlpha then
      (if start then c.toUpper else c.toLower) :: pyTitle false rest
    else
      c :: pyTitle true rest

/-- Embedding of `scripts/init.py::to_title`:
`name.replace('-', ' ').replace('_', ' ').title()`. -/
def to_title (name : Str) : Str :=
  pyTitle true (replaceList ['_'] [' '] (replaceList ['-'] [' '] name))

/-- Python `str.upper()` restricted to ASCII (all keys fed to it in the
source are ASCII). -/
def pyUpper (s : Str) : Str := s.map Char.toUpper

/-- Python `str.lower()` restricted to ASCII. -/
def pyLower (s : Str) : Str := s.map Char.toLower

/-- Embedding of `scripts/init.py::escape_toml_string`: backslashes are doubled first,
then double quotes are escaped. -/
def escape_toml_string (value : Str) : Str :=
  replaceList ['"'] ['\\', '"'] (replaceList ['\\'] ['\\', '\\'] value)

/-- Association-list lookup, embedding Python `dict` lookup for the fixed
literal dicts of the source. -/
def lookupAssoc : List (Str × Str) → Str → Option Str
  | [], _ => none
  | (k, v) :: rest, key => if k = key then some v else lookupAssoc rest key

/-- Embedding of `scripts/init.py::SPDX_MAP` (fixed literal dict, in source order). -/
def SPDX_MAP : List (Str × Str) :=
  [ (("agpl-3.0").toList, ("AGPL-3.0-only").toList)
  , (("apache-2.0").toList, ("Apache-2.0").toList)
  , (("bsd-2-clause").toList, ("BSD-2-Clause").toList)
  , (("bsd-3-clause").toList, ("BSD-3-Clause").toList)
  , (("bsl-1.0").toList, ("BSL-1.0").toList)
  , (("cc0-1.0").toList, ("CC0-1.0").toList)
  , (("epl-2.0").toList, ("EPL-2.0").toList)
  , (("gpl-2.0").toList, ("GPL-2.0-only").toList)
  , (("gpl-3.0").toList, ("GPL-3.0-only").toList)
  , (("lgpl-2.1").toList, ("LGPL-2.1-only").toList)
  , (("mit").toList, ("MIT").toList)
  , (("mpl-2.0").toList, ("MPL-2.0").toList)
  , (("unlicense").toList, ("Unlicense").toList) ]

/-- Embedding of `scripts/init.py::spdx_id_for_key`:
`SPDX_MAP.get(license_key, license_key.upper())`. -/
def spdx_id_for_key (license_key : Str) : Str :=
  match lookupAssoc SPDX_MAP license_key with
  | some v => v
  | none => pyUpper license_key

/-- Embedding of `scripts/init.py::STDLIB_NAMES` (fixed literal frozenset). -/
def STDLIB_NAMES : List Str :=
  [ ("abc").toList, ("ast").toList, ("asyncio").toList, ("base64").toList
  , ("collections").toList, ("contextlib").toList, ("copy").toList
  , ("csv").toList, ("dataclasses").toList, ("datetime").toList
  , ("decimal").toList, ("enum").toList, ("functools").toList
  , ("hashlib").toList, ("http").toList, ("importlib").toList
  , ("inspect").toList, ("io").toList, ("itertools").toList
  , ("json").toList, ("logging").toList, ("math").toList
  , ("multiprocessing").toList, ("operator").toList, ("os").toList
  , ("pathlib").toList, ("pickle").toList, ("platform").toList
  , ("pprint").toList, ("queue").toList, ("random").toList
  , ("re").toList, ("secrets").toList, ("shutil").toList
  , ("signal").toList, ("socket").toList, ("sqlite3").toList
  , ("string").toList, ("struct").toList, ("subprocess").toList
  , ("sys").toList, ("test").toList, ("textwrap").toList
  , ("threading").toList, ("time").toList, ("tomllib").toList
  , ("typing").toList, ("unittest").toList, ("uuid").toList
  , ("warnings").toList, ("xml").toList, ("zipfile").toList ]

/-- Character test: `c` is in `[a-z]`. -/
def isLowerAlpha (c : Char) : Bool := 'a' ≤ c && c ≤ 'z'

/-- Character test: `c` is in `[0-9]`. -/
def isDigitCh (c : Char) : Bool := '0' ≤ c && c ≤ '9'

/-- Character test: `c` is in `[a-z0-9]` (the final character class of `_NAME_RE`). -/
def isNameEnd (c : Char) : Bool := isLowerAlpha c || isDigitCh c

/-- Character test: `c` is in `[a-z0-9_-]` (the interior character class of `_NAME_RE`). -/
def isNameInner (c : Char) : Bool := isNameEnd c || c = '_' || c = '-'

/-- The regex `^[a-z]([a-z0-9_-]*[a-z0-9])?$` under fully-anchored
semantics: first char in `[a-z]`, last char in `[a-z0-9]` when the string
has length ≥ 2, all characters in between in `[a-z0-9_-]`. -/
def nameCore (s : Str) : Bool :=
  match s with
  | [] => false
  | c :: rest =>
    isLowerAlpha c &&
      (match rest with
       | [] => true
       | d :: ds =>
         (d :: ds).dropLast.all isNameInner &&
           isNameEnd ((d :: ds).getLast (List.cons_ne_nil d ds)))

/-- CPython `_NAME_RE.match(s)` is truthy.  In Python the `$` anchor also
matches just before a single trailing `'\n'`, so `re.match` accepts a
valid body followed by one final newline in addition to exact matches. -/
def pyNameMatch (s : Str) : Bool :=
  nameCore s || (s.getLast? == some '\n' && nameCore s.dropLast)

/-- Embedding of `scripts/init.py::validate_name`, with `raise ValueError(msg)`
embedded as `.error msg`.  Checks run in source order: regex, reserved
template defaults, stdlib shadowing. -/
def validate_name (name : Str) : Except Str Unit :=
  if pyNameMatch name = false then
    .error (("Invalid package name: '").toList ++ name ++
      ("'. Must start with a lowercase letter and contain only [a-z0-9_-].").toList)
  else if name = ("python-package-template").toList ∨
      name = ("python_package_template").toList then
    .error ("Please choose a name other than the template default.").toList
  else if to_snake name ∈ STDLIB_NAMES then
    .error (("Package name '").toList ++ name ++
      ("' would shadow the Python stdlib module '").toList ++
      to_snake name ++ ("'.").toList)
  else
    .ok ()

/-- Embedding of `scripts/init.py::ProjectConfig` (base fields; the derived fields of
`__post_init__` are the functions below). -/
structure ProjectConfig where
  name : Str
  author : Str
  email : Str
  github_owner : Str
  description : Str
  license_key : Str
  enable_pypi : Bool

/-- Derived field `snake_name` from `ProjectConfig.__post_init__`. -/
def snake_name (cfg : ProjectConfig) : Str := to_snake cfg.name

/-- Derived field `kebab_name` from `ProjectConfig.__post_init__`. -/
def kebab_name (cfg : ProjectConfig) : Str := to_kebab cfg.name

/-- Derived field `title_name` from `ProjectConfig.__post_init__`. -/
def title_name (cfg : ProjectConfig) : Str := to_title cfg.name

/-- Derived field `github_repo = f'{github_owner}/{to_kebab(name)}'`. -/
def github_repo (cfg : ProjectConfig) : Str :=
  cfg.github_owner ++ '/' :: to_kebab cfg.name

/-- Embedding of `scripts/init.py::_TEMPLATE_DESC`. -/
def TEMPLATE_DESC : Str :=
  ("A production-ready template for starting new Python packages.").toList

/-- Where a given file sits in the tree, as far as
`update_project_references` / `update_description` are concerned: whether
it is in the `find_project_files` list, and whether it is one of the three
specially-treated paths (`pyproject.toml`, `.github/CODEOWNERS`,
`recipe/meta.yaml`). -/
structure FileRole where
  inFiles : Bool
  isPyproject : Bool
  isCodeowners : Bool
  isMetaYaml : Bool

/-- One conditional `replace_in_file` application: the replacement runs
only when the file plays the role guarding the rule. -/
def condReplace (b : Bool) (pat rep : Str) (s : Str) : Str :=
  if b then replaceList pat rep s else s

/-- Apply an ordered list of `(guard, pattern, replacement)` rules to one
file's content, first rule first. -/
def applyRules : List (Bool × Str × Str) → Str → Str
  | [], s => s
  | (b, pat, rep) :: rest, s => applyRules rest (condReplace b pat rep s)

/-- The full ordered rule set a single file is subjected to by
`update_project_references` followed by `update_description`, in source
order.  `replace_in_files` rules are guarded by membership in the
`find_project_files` list; the `pyproject.toml` / `CODEOWNERS` /
`meta.yaml` rules by the file being that path. -/
def substRules (cfg : ProjectConfig) (role : FileRole) :
    List (Bool × Str × Str) :=
  [ (role.inFiles, ("michaelellis003/python-package-template").toList,
      github_repo cfg)
  , (role.inFiles, ("michaelellis003/uv-python-template").toList,
      github_repo cfg)
  , (role.isPyproject, ("name = \"Michael Ellis\"").toList,
      ("name = \"").toList ++ escape_toml_string cfg.author ++ ['"'])
  , (role.isPyproject, ("email = \"michaelellis003@gmail.com\"").toList,
      ("email = \"").toList ++ escape_toml_string cfg.email ++ ['"'])
  , (role.isCodeowners, ("@michaelellis003").toList,
      '@' :: cfg.github_owner)
  , (role.inFiles, ("michaelellis003.github.io/uv-python-template").toList,
      cfg.github_owner ++ (".github.io/").toList ++ kebab_name cfg)
  , (role.inFiles, ("python_package_template").toList, snake_name cfg)
  , (role.inFiles, ("python-package-template").toList, kebab_name cfg)
  , (role.inFiles, ("Python Package Template").toList, title_name cfg)
  , (role.isMetaYaml, ("michaelellis003").toList, cfg.github_owner)
  , (role.isPyproject, TEMPLATE_DESC, escape_toml_string cfg.description)
  , (role.isMetaYaml, TEMPLATE_DESC, cfg.description) ]

/-- One file's content after `update_project_references` followed by
`update_description`. -/
def substPass (cfg : ProjectConfig) (role : FileRole) (s : Str) : Str :=
  applyRules (substRules cfg role) s

/-- The search strings of the substitution pass. -/
def passPatterns : List Str :=
  [ ("michaelellis003/python-package-template").toList
  , ("michaelellis003/uv-python-template").toList
  , ("name = \"Michael Ellis\"").toList
  , ("email = \"michaelellis003@gmail.com\"").toList
  , ("@michaelellis003").toList
  , ("michaelellis003.github.io/uv-python-template").toList
  , ("python_package_template").toList
  , ("python-package-template").toList
  , ("Python Package Template").toList
  , ("michaelellis003").toList
  , TEMPLATE_DESC ]

/-! ### Basic lemmas about `replaceList`, `containsSub` and `expand` -/

theorem replaceFuel_congr (pat rep : Str) :
    ∀ f1 f2 : Nat, ∀ s : Str, s.length ≤ f1 → s.length ≤ f2 →
      replaceFuel pat rep f1 s = replaceFuel pat rep f2 s := by
  intro f1
  induction f1 with
  | zero =>
    intro f2 s h1 _
    have hs : s = [] := List.length_eq_zero.mp (Nat.le_zero.mp h1)
    subst hs
    cases f2 <;> rfl
  | succ f ih =>
    intro f2 s h1 h2
    cases s with
    | nil => cases f2 <;> rfl
    | cons c rest =>
      cases f2 with
      | zero => simp at h2
      | succ f2' =>
        simp only [List.length_cons] at h1 h2
        simp only [replaceFuel]
        by_cases hcond : pat ≠ [] ∧ isPre pat (c :: rest) = true
        · rw [if_pos hcond, if_pos hcond,
            ih f2' (List.drop (pat.length - 1) rest)
              (by simp only [List.length_drop]; omega)
              (by simp only [List.length_drop]; omega)]
        · rw [if_neg hcond, if_neg hcond,
            ih f2' rest (by omega) (by omega)]

theorem replaceList_cons (pat rep : Str) (c : Char) (rest : Str) :
    replaceList pat rep (c :: rest) =
      if pat ≠ [] ∧ isPre pat (c :: rest) = true then
        rep ++ replaceList pat rep (List.drop (pat.length - 1) rest)
      else
        c :: replaceList pat rep rest := by
  show replaceFuel pat rep (rest.length + 1) (c :: rest) = _
  rw [replaceFuel]
  by_cases hcond : pat ≠ [] ∧ isPre pat (c :: rest) = true
  · rw [if_pos hcond, if_pos hcond, replaceList,
      replaceFuel_congr pat rep rest.length
        (List.drop (pat.length - 1) rest).length
        (List.drop (pat.length - 1) rest)
        (by simp only [List.length_drop]; omega) le_rfl]
  · rw [if_neg hcond, if_neg hcond]
    rfl

theorem replaceList_of_not_contains (pat rep s : Str)
    (h : containsSub pat s = false) : replaceList pat rep s = s := by
  induction s with
  | nil => rfl
  | cons c rest ih =>
    have h1 : isPre pat (c :: rest) = false := by
      cases hp : isPre pat (c :: rest)
      · rfl
      · simp only [containsSub, hp, Bool.true_or] at h
        exact h
    have h2 : containsSub pat rest = false := by
      cases hc : containsSub pat rest
      · rfl
      · simp only [containsSub, hc, Bool.or_true] at h
        exact h
    rw [replaceList_cons, if_neg]
    · rw [ih h2]
    · rintro ⟨-, hpre⟩
      rw [h1] at hpre
      exact Bool.false_ne_true hpre

theorem condReplace_of_not_contains (b : Bool) (pat rep s : Str)
    (h : containsSub pat s = false) : condReplace b pat rep s = s := by
  cases b <;> simp [condReplace, replaceList_of_not_contains pat rep s h]

theorem applyRules_of_not_contains (rules : List (Bool × Str × Str))
    (s : Str) (h : ∀ r ∈ rules, containsSub r.2.1 s = false) :
    applyRules rules s = s := by
  induction rules with
  | nil => rfl
  | cons r rest ih =>
    obtain ⟨b, pat, rep⟩ := r
    have h1 : containsSub pat s = false := h (b, pat, rep) (by simp)
    rw [applyRules, condReplace_of_not_contains b pat rep s h1]
    exact ih fun r hr => h r (List.mem_cons_of_mem _ hr)

theorem replaceList_single (a : Char) (rep : Str) (s : Str) :
    replaceList [a] rep s = expand (fun c => if c = a then rep else [c]) s := by
  induction s with
  | nil => rfl
  | cons c rest ih =>
    rw [replaceList_cons, expand]
    by_cases hc : c = a
    · rw [if_pos ⟨List.cons_ne_nil a [], by simp [isPre, hc]⟩, if_pos hc]
      simp only [List.length_cons, List.length_nil, Nat.add_sub_cancel,
        List.drop_zero]
      rw [ih]
    · have hcond : ¬([a] ≠ [] ∧ isPre [a] (c :: rest) = true) := by
        rintro ⟨-, hpre⟩
        simp only [isPre, Bool.and_eq_true, decide_eq_true_eq] at hpre
        exact hc hpre.1.symm
      rw [if_neg hcond, if_neg hc, ih]
      rfl

theorem expand_append (f : Char → Str) (xs ys : Str) :
    expand f (xs ++ ys) = expand f xs ++ expand f ys := by
  induction xs with
  | nil => simp [expand]
  | cons c rest ih => simp [expand, ih]

theorem expand_comp (f g : Char → Str) (s : Str) :
    expand f (expand g s) = expand (fun c => expand f (g c)) s := by
  induction s with
  | nil => simp [expand]
  | cons c rest ih => simp [expand, expand_append, ih]

theorem expand_congr (f g : Char → Str) (h : ∀ c, f c = g c) (s : Str) :
    expand f s = expand g s := by
  induction s with
  | nil => simp [expand]
  | cons c rest ih => simp [expand, ih, h]

theorem to_kebab_to_snake (s : Str) : to_kebab (to_snake s) = to_kebab s := by
  rw [to_snake, to_kebab, to_kebab, replaceList_single, replaceList_single,
    replaceList_single, expand_comp]
  refine expand_congr _ _ (fun c => ?_) s
  by_cases h1 : c = '-' <;> by_cases h2 : c = '_' <;> simp [h1, h2, expand]

theorem to_snake_to_kebab (s : Str) : to_snake (to_kebab s) = to_snake s := by
  rw [to_snake, to_snake, to_kebab, replaceList_single, replaceList_single,
    replaceList_single, expand_comp]
  refine expand_congr _ _ (fun c => ?_) s
  by_cases h1 : c = '-' <;> by_cases h2 : c = '_' <;> simp [h1, h2, expand]

/-! ### C8 : separator round-trip stability -/

/-- C8: for every valid name `n`, `to_kebab (to_snake n) = to_kebab n` and
`to_snake (to_kebab n) = to_snake n`: converting to the other separator
first never changes the result of the chosen case transform. -/
theorem c8_separator_roundtrip (n : Str) (_h : validate_name n = .ok ()) :
    to_kebab (to_snake n) = to_kebab n ∧ to_snake (to_kebab n) = to_snake n :=
  ⟨to_kebab_to_snake n, to_snake_to_kebab n⟩

/-- Witness for C8 at the concrete valid name `my-cool_pkg`. -/
theorem c8_separator_roundtrip_witness :
    to_kebab (to_snake (("my-cool_pkg").toList)) =
        to_kebab (("my-cool_pkg").toList) ∧
      to_snake (to_kebab (("my-cool_pkg").toList)) =
        to_snake (("my-cool_pkg").toList) :=
  c8_separator_roundtrip (("my-cool_pkg").toList) (by rfl)

/-! ### C10 : SPDX key lookup never fails -/

/-- C10: for every license key absent from `SPDX_MAP`, `spdx_id_for_key`
returns the key uppercased instead of failing; for every key present in
the map it returns the mapped identifier. -/
theorem c10_spdx_id_total (k : Str) :
    (lookupAssoc SPDX_MAP k = none → spdx_id_for_key k = pyUpper k) ∧
      ∀ v, lookupAssoc SPDX_MAP k = some v → spdx_id_for_key k = v := by
  constructor
  · intro h
    simp [spdx_id_for_key, h]
  · intro v h
    simp [spdx_id_for_key, h]

/-- Witness for C10: the unknown key `wtfpl` maps to its uppercase form,
and the mapped key `mit` maps to `MIT`. -/
theorem c10_spdx_id_total_witness :
    spdx_id_for_key (("wtfpl").toList) = ("WTFPL").toList ∧
      spdx_id_for_key (("mit").toList) = ("MIT").toList := by
  constructor
  · rw [(c10_spdx_id_total (("wtfpl").toList)).1 (by decide)]
    decide
  · exact (c10_spdx_id_total (("mit").toList)).2 (("MIT").toList) (by decide)

/-! ### C4 : validate_name vs. the documented pattern -/

/-- C4 (code-bug evidence): CPython's `$` matches just before a single
trailing newline, so `validate_name` accepts `'abc\n'` even though that
name fails the documented fully-anchored pattern (its last character is a
newline, not an alphanumeric, and `'\n'` is outside `[a-z0-9_-]`),
contradicting the error message the function itself would print. -/
theorem c4_validate_name_trailing_newline_bug :
    validate_name (("abc\n").toList) = .ok () ∧
      nameCore (("abc\n").toList) = false ∧
      isNameInner '\n' = false :=
  ⟨rfl, rfl, rfl⟩

/-! ### C1 : idempotence of the substitution pass -/

/-- Configuration for the C1 counterexample: the validated name
`my-python-package-template` contains the generic search pattern
`python-package-template` as a proper substring. -/
def cexConfig : ProjectConfig :=
  { name := ("my-python-package-template").toList
  , author := ("Jane Smith").toList
  , email := ("jane@example.com").toList
  , github_owner := ("alice").toList
  , description := ("A cool package.").toList
  , license_key := ("mit").toList
  , enable_pypi := false }

/-- Role of an ordinary file in the `find_project_files` list. -/
def cexRole : FileRole :=
  { inFiles := true, isPyproject := false, isCodeowners := false
  , isMetaYaml := false }

/-- C1 counterexample: with the validated name
`my-python-package-template`, a file containing
`python-package-template` becomes `my-python-package-template` after one
pass and `my-my-python-package-template` after a second pass, so the
substitution pass is not idempotent. -/
theorem c1_subst_not_idempotent :
    validate_name cexConfig.name = .ok () ∧
      substPass cexConfig cexRole
          (substPass cexConfig cexRole (("python-package-template").toList)) ≠
        substPass cexConfig cexRole (("python-package-template").toList) :=
  ⟨rfl, by decide⟩

/-- C1 (amended): the substitution pass is idempotent on every file whose
content after the first pass contains no occurrence of any of the pass's
search strings; the second run then leaves the content byte-identical. -/
theorem c1_subst_idempotent_of_no_patterns (cfg : ProjectConfig)
    (role : FileRole) (s : Str)
    (h : ∀ p ∈ passPatterns, containsSub p (substPass cfg role s) = false) :
    substPass cfg role (substPass cfg role s) = substPass cfg role s := by
  rw [substPass]
  refine applyRules_of_not_contains _ _ (fun r hr => ?_)
  have hp : r.2.1 ∈ passPatterns := by
    simp only [substRules, List.mem_cons, List.not_mem_nil, or_false] at hr
    rcases hr with rfl | rfl | rfl | rfl | rfl | rfl | rfl | rfl | rfl |
      rfl | rfl | rfl <;> simp [passPatterns]
  exact h r.2.1 hp

/-- Configuration for the C1 witness: none of the derived replacement
values contains a search pattern. -/
def cexWCfg : ProjectConfig :=
  { name := ("myproj").toList
  , author := ("Jane Smith").toList
  , email := ("jane@example.com").toList
  , github_owner := ("alice").toList
  , description := ("A cool package.").toList
  , license_key := ("mit").toList
  , enable_pypi := false }

/-- Role of every file at once for the C1 witness (all rules enabled). -/
def cexWRole : FileRole :=
  { inFiles := true, isPyproject := true, isCodeowners := true
  , isMetaYaml := true }

/-- Witness for the amended C1 at a config whose substituted values
reintroduce no search pattern. -/
theorem c1_subst_idempotent_witness :
    substPass cexWCfg cexWRole
        (substPass cexWCfg cexWRole (("python-package-template").toList)) =
      substPass cexWCfg cexWRole (("python-package-template").toList) :=
  c1_subst_idempotent_of_no_patterns cexWCfg cexWRole
    (("python-package-template").toList) (by decide)

/-! ### C7 : TOML escaping -/

/-- A control character that may not appear unescaped in a TOML basic
string: U+0000–U+001F except tab, and U+007F. -/
def bannedCtrl (c : Char) : Bool :=
  (c.toNat < 32 && !(c = '\t' : Bool)) || c.toNat == 127

/-- Value of a short escape sequence `\e` in a TOML basic string. -/
def escVal (e : Char) : Option Char :=
  if e = '"' then some '"'
  else if e = '\\' then some '\\'
  else if e = 'b' then some (Char.ofNat 8)
  else if e = 'f' then some (Char.ofNat 12)
  else if e = 'n' then some '\n'
  else if e = 'r' then some '\r'
  else if e = 't' then some '\t'
  else none

/-- Modelled from the spec: the "conforming TOML double-quoted-string
reader" that reads back the escaped value (the repository itself contains
no TOML reader).  Applied to the characters between the quotes, it
resolves short escapes and rejects invalid escapes, unescaped quotes and
unescaped control characters (tab excepted).  `\uXXXX`/`\UXXXXXXXX`
escapes are not modelled: `escape_toml_string` never produces them. -/
def tomlUnescape : Str → Option Str
  | [] => some []
  | c :: rest =>
    if c = '\\' then
      match rest with
      | [] => none
      | e :: rest' =>
        match escVal e with
        | some d => (tomlUnescape rest').map (fun t => d :: t)
        | none => none
    else if c = '"' then none
    else if bannedCtrl c = true then none
    else (tomlUnescape rest).map (fun t => c :: t)

/-- The per-character action of `escape_toml_string` (doubling backslashes
first and then escaping quotes collapses to this single map). -/
def escTomlChar (c : Char) : Str :=
  if c = '\\' then ['\\', '\\'] else if c = '"' then ['\\', '"'] else [c]

theorem escape_toml_expand (s : Str) :
    escape_toml_string s = expand escTomlChar s := by
  rw [escape_toml_string, replaceList_single, replaceList_single, expand_comp]
  refine expand_congr _ _ (fun c => ?_) s
  by_cases h1 : c = '\\' <;> by_cases h2 : c = '"' <;>
    simp [h1, h2, expand, escTomlChar]

theorem tomlUnescape_expand (s : Str) :
    (∀ c ∈ s, bannedCtrl c = false) →
      tomlUnescape (expand escTomlChar s) = some s := by
  induction s with
  | nil => intro _; rfl
  | cons c rest ih =>
    intro h
    have hc : bannedCtrl c = false := h c (List.mem_cons_self c rest)
    have hrest : ∀ d ∈ rest, bannedCtrl d = false :=
      fun d hd => h d (List.mem_cons_of_mem c hd)
    rw [expand]
    by_cases h1 : c = '\\'
    · subst h1
      simp [escTomlChar, tomlUnescape, escVal, ih hrest]
    · by_cases h2 : c = '"'
      · subst h2
        simp [escTomlChar, tomlUnescape, escVal, ih hrest]
      · simp only [escTomlChar, if_neg h1, if_neg h2]
        rw [List.singleton_append]
        unfold tomlUnescape
        rw [if_neg h1, if_neg h2,
          if_neg (by rw [hc]; exact Bool.false_ne_true), ih hrest]
        rfl

/-- C7 counterexample: the raw-newline string survives
`escape_toml_string` unchanged, and a conforming TOML basic-string reader
rejects an unescaped newline instead of yielding the original string, so
the round-trip claimed "for every input string" fails. -/
theorem c7_roundtrip_cex :
    escape_toml_string ['\n'] = ['\n'] ∧ tomlUnescape ['\n'] = none :=
  ⟨rfl, rfl⟩

/-- Configuration used for the concrete half of C7 (description
`A "quoted" value`). -/
def c7Cfg : ProjectConfig :=
  { name := ("myproj").toList
  , author := ("Jane Smith").toList
  , email := ("jane@example.com").toList
  , github_owner := ("alice").toList
  , description := ("A \"quoted\" value").toList
  , license_key := ("mit").toList
  , enable_pypi := false }

/-- The `pyproject.toml` role. -/
def c7Role : FileRole :=
  { inFiles := true, isPyproject := true, isCodeowners := false
  , isMetaYaml := false }

/-- A `pyproject.toml` description line holding the template default. -/
def c7Content : Str :=
  ("description = \"").toList ++ TEMPLATE_DESC ++ ['"']

/-- C7 (amended): TOML escaping doubles backslashes first and then
escapes quotes; for the description `A "quoted" value` the escaped form —
also as written into `pyproject.toml` by the substitution pass — contains
the substring `\"quoted\"`; and for every input string containing no
control characters (tab excepted) the escaped form read back by a
conforming TOML double-quoted-string reader yields the original string. -/
theorem c7_toml_escape_roundtrip :
    containsSub (("\\\"quoted\\\"").toList)
        (escape_toml_string (("A \"quoted\" value").toList)) = true ∧
      containsSub (("\\\"quoted\\\"").toList)
        (substPass c7Cfg c7Role c7Content) = true ∧
      ∀ s : Str, (∀ c ∈ s, bannedCtrl c = false) →
        tomlUnescape (escape_toml_string s) = some s := by
  refine ⟨by decide, by decide, fun s h => ?_⟩
  rw [escape_toml_expand]
  exact tomlUnescape_expand s h

/-- Witness for C7 at the concrete description `A "quoted" value`. -/
theorem c7_toml_escape_roundtrip_witness :
    tomlUnescape (escape_toml_string (("A \"quoted\" value").toList)) =
      some (("A \"quoted\" value").toList) :=
  c7_toml_escape_roundtrip.2.2 (("A \"quoted\" value").toList) (by decide)

/-! ### C2 / C3 : tarball extraction (`cli/src/pypkgkit/scaffold.py`) -/

/-- One member of a tar archive: whether its path is absolute, its path
segments (`pathlib.Path(member.name).parts`, root segment excluded), and
whether it is a directory entry. -/
structure TarMember where
  isAbs : Bool
  parts : List Str
  isDir : Bool
deriving DecidableEq

/-- The per-member validation of `extract_tarball`:
`member_path.is_absolute() or '..' in member_path.parts`. -/
def memberUnsafe (m : TarMember) : Bool :=
  m.isAbs || m.parts.contains (("..").toList)

/-- Member name: `member.name` rebuilt from the parts (for the error message). -/
def memberName (m : TarMember) : Str :=
  (if m.isAbs then ['/'] else []) ++ List.intercalate (['/']) m.parts

/-- The path-traversal error message (`{member.name!r}` approximated by
single quotes). -/
def traversalMsg (m : TarMember) : Str :=
  ("Refusing to extract: path traversal detected in '").toList ++
    memberName m ++ [Char.ofNat 39]

/-- The `for member in tf.getmembers()` validation loop of
`extract_tarball`: raises on the first unsafe member, before anything is
extracted. -/
def checkMembers : List TarMember → Except Str Unit
  | [] => .ok ()
  | m :: rest =>
    if memberUnsafe m then .error (traversalMsg m) else checkMembers rest

/-- The top-level directory name a member contributes to the destination
after `extractall`: its first path segment, provided the member either is
a directory entry or lies deeper than the top level (which forces the
first segment into existence as a directory). -/
def topDirName (m : TarMember) : Option Str :=
  if 1 < m.parts.length ∨ m.isDir = true then m.parts.head? else none

/-- Embedding of `[p for p in dest.iterdir() if p.is_dir()]`: the distinct top-level
directory names among the given entries. -/
def childrenDirs (entries : List TarMember) : List Str :=
  (entries.filterMap topDirName).dedup

/-- The distinct top-level names (directories and files alike) among the
given entries; used only to state the claim's "top-level entries"
reading. -/
def topEntries (entries : List TarMember) : List Str :=
  (entries.filterMap (fun m => m.parts.head?)).dedup

/-- Embedding of `cli/src/pypkgkit/scaffold.py::extract_tarball` on an archive
(`members`) and a destination directory already holding `destPre`:
validate every member, then extract all of them, then require exactly one
resulting top-level directory and return it.  The first component is the
destination's contents afterwards; an error during validation leaves the
destination untouched. -/
def extract_tarball (members destPre : List TarMember) :
    List TarMember × Except Str Str :=
  match checkMembers members with
  | .error e => (destPre, .error e)
  | .ok _ =>
    let dest := destPre ++ members
    let children := childrenDirs dest
    if children.length ≠ 1 then
      (dest, .error
        (("Expected 1 top-level directory in archive, found ").toList ++
          (Nat.repr children.length).toList))
    else
      (dest, .ok children.headI)

theorem checkMembers_error_of_unsafe (members : List TarMember)
    (h : members.any memberUnsafe = true) :
    ∃ e, checkMembers members = .error e := by
  induction members with
  | nil => simp at h
  | cons m rest ih =>
    by_cases hm : memberUnsafe m = true
    · exact ⟨traversalMsg m, by simp [checkMembers, hm]⟩
    · have hrest : rest.any memberUnsafe = true := by
        simp only [List.any_cons, Bool.or_eq_true] at h
        exact h.resolve_left hm
      obtain ⟨e, he⟩ := ih hrest
      exact ⟨e, by simp [checkMembers, hm, he]⟩

theorem checkMembers_ok_of_safe (members : List TarMember)
    (h : members.any memberUnsafe = false) :
    checkMembers members = .ok () := by
  induction members with
  | nil => rfl
  | cons m rest ih =>
    simp only [List.any_cons, Bool.or_eq_false_iff] at h
    simp [checkMembers, h.1, ih h.2]

/-- C2: an archive with at least one member whose path is absolute or
contains a `..` segment makes `extract_tarball` raise before any file is
written: the destination's contents are unchanged and the result is an
error. -/
theorem c2_traversal_aborts_before_write (members destPre : List TarMember)
    (h : members.any memberUnsafe = true) :
    (extract_tarball members destPre).1 = destPre ∧
      ∃ e, (extract_tarball members destPre).2 = .error e := by
  obtain ⟨e, he⟩ := checkMembers_error_of_unsafe members h
  rw [extract_tarball, he]
  exact ⟨rfl, e, rfl⟩

/-- Witness for C2: a one-member archive whose path climbs out of the
destination, extracted into an empty directory. -/
theorem c2_traversal_aborts_before_write_witness :
    (extract_tarball [⟨false, [("..").toList, ("x").toList], false⟩] []).1
        = [] ∧
      ∃ e, (extract_tarball
        [⟨false, [("..").toList, ("x").toList], false⟩] []).2 = .error e :=
  c2_traversal_aborts_before_write
    [⟨false, [("..").toList, ("x").toList], false⟩] [] (by decide)

/-- The C3 counterexample archive: one top-level directory `pkg` (with a
file inside) plus one top-level regular file `README.md` — two top-level
entries, one top-level directory. -/
def c3Members : List TarMember :=
  [ ⟨false, [("pkg").toList], true⟩
  , ⟨false, [("pkg").toList, ("a.txt").toList], false⟩
  , ⟨false, [("README.md").toList], false⟩ ]

/-- C3 counterexample: this archive yields two top-level entries, yet
`extract_tarball` succeeds and returns `pkg`, because the code counts only
top-level *directories* (`if p.is_dir()`), not entries. -/
theorem c3_two_entries_still_ok :
    (topEntries c3Members).length = 2 ∧
      (extract_tarball c3Members []).2 = .ok (("pkg").toList) :=
  ⟨by decide, rfl⟩

/-- C3 (amended): for a safe archive extracted into a destination with no
top-level directories, `extract_tarball` raises when the archive yields
zero or two-or-more top-level directories, and returns the single
top-level directory when there is exactly one. -/
theorem c3_single_top_dir (members destPre : List TarMember)
    (h1 : members.any memberUnsafe = false)
    (h2 : destPre.filterMap topDirName = []) :
    ((childrenDirs members).length ≠ 1 →
        ∃ e, (extract_tarball members destPre).2 = .error e) ∧
      ∀ d, childrenDirs members = [d] →
        (extract_tarball members destPre).2 = .ok d := by
  have hok := checkMembers_ok_of_safe members h1
  have hch : childrenDirs (destPre ++ members) = childrenDirs members := by
    rw [childrenDirs, childrenDirs, List.filterMap_append, h2,
      List.nil_append]
  constructor
  · intro hlen
    simp only [extract_tarball, hok, hch]
    rw [if_pos hlen]
    exact ⟨_, rfl⟩
  · intro d hd
    simp only [extract_tarball, hok, hch, hd]
    simp

/-- Witness for the amended C3: a two-member archive with the single
top-level directory `pkg`, extracted into a directory holding only the
downloaded tarball file. -/
theorem c3_single_top_dir_witness :
    (extract_tarball
        [ ⟨false, [("pkg").toList], true⟩
        , ⟨false, [("pkg").toList, ("a.txt").toList], false⟩ ]
        [⟨false, [("template.tar.gz").toList], false⟩]).2 =
      .ok (("pkg").toList) :=
  (c3_single_top_dir
      [ ⟨false, [("pkg").toList], true⟩
      , ⟨false, [("pkg").toList, ("a.txt").toList], false⟩ ]
      [⟨false, [("template.tar.gz").toList], false⟩]
      (by decide) (by decide)).2 (("pkg").toList) (by decide)

/-! ### C5 / C6 : the scaffold pipeline (`cli/src/pypkgkit/scaffold.py`) -/

/-- The network calls the scaffold pipeline can make: the GitHub
`releases/latest` API lookup and the archive download. -/
inductive NetAction
  | apiLatestTag
  | download
deriving DecidableEq

/-- Failure of `get_latest_release_tag`: an `HTTPError` with its status
code, or a `URLError` with its reason (caught in that order, as in the
source). -/
inductive HttpFail
  | http (code : Nat)
  | url (reason : Str)
deriving DecidableEq

/-- The environment a scaffold run interacts with; each field is the
outcome the corresponding call in the source would produce. -/
structure ScaffoldEnv where
  /-- Result of `target_path.exists()` at the start of `scaffold`. -/
  targetExists : Bool
  /-- Result of `check_gh_installed()`. -/
  ghInstalled : Bool
  /-- Result of `check_gh_authenticated()`. -/
  ghAuthed : Bool
  /-- Result of `detect_gh_owner()` (None when detection fails). -/
  detectedOwner : Option Str
  /-- Outcome of `get_latest_release_tag()`. -/
  tagResult : Except HttpFail Str
  /-- Result of `download_tarball`: `none` = success, `some msg` = the
  `URLError`/`OSError` text. -/
  downloadFail : Option Str
  /-- Members of the downloaded archive. -/
  archiveMembers : List TarMember
  /-- Result of `target.exists()` inside `move_template_to_target`, i.e. re-checked
  after download and extraction. -/
  targetExistsAtMove : Bool
  /-- Whether `load_init_module` finds `scripts/init.py`. -/
  initLoadOk : Bool
  /-- Whether `run_init` succeeds. -/
  initRunOk : Bool
  /-- Result of `check_git_installed()`. -/
  gitInstalled : Bool
  /-- Whether `git_init` returns 0. -/
  gitInitOk : Bool
  /-- Whether `setup_github` returns 0. -/
  githubSetupOk : Bool

/-- Embedding of `scaffold.py::get_tarball_url`. -/
def get_tarball_url (tag : Str) : Str :=
  ("https://github.com/michaelellis003/uv-python-template/archive/refs/tags/").toList
    ++ tag ++ (".tar.gz").toList

/-- The early `gh` checks and owner auto-detection in `scaffold` (the
`if github:` block). -/
def ghChecks (env : ScaffoldEnv) (githubOwner : Option Str) :
    Except Str (Option Str) :=
  if env.ghInstalled = false then
    .error
      ("gh CLI is not installed. Install from https://cli.github.com").toList
  else if env.ghAuthed = false then
    .error ("gh is not authenticated. Run: gh auth login").toList
  else
    match githubOwner with
    | some ow => .ok (some ow)
    | none =>
      match env.detectedOwner with
      | some ow => .ok (some ow)
      | none =>
        .error
          ("Could not detect GitHub username. Use --github-owner to specify.").toList

/-- The `gh` checks run only when `--github` was requested. -/
def ghGate (github : Bool) (env : ScaffoldEnv) (githubOwner : Option Str) :
    Except Str (Option Str) :=
  if github then ghChecks env githubOwner else .ok githubOwner

/-- Embedding of `scaffold.py::_resolve_tag` plus the network action it performs:
a pinned `--template-version` skips the API call, otherwise the
`releases/latest` lookup runs. -/
def resolveTag (env : ScaffoldEnv) (templateVersion : Option Str) :
    List NetAction × Except HttpFail Str :=
  match templateVersion with
  | some t => ([], .ok t)
  | none => ([NetAction.apiLatestTag], env.tagResult)

/-- The tmpdir entry present during extraction: the downloaded
`template.tar.gz` file (a regular file, so never a top-level directory). -/
def tarballFileEntry : TarMember :=
  ⟨false, [("template.tar.gz").toList], false⟩

/-- The rate-limit message of `scaffold` for HTTP 403 on the tag lookup. -/
def rateLimitMsg : Str :=
  ("GitHub API rate limit exceeded. Use --template-version to skip the API call.").toList

/-- Rendering of `str(exc)` for an `HTTPError` (approximated by its status line). -/
def renderHttpCode (code : Nat) : Str :=
  ("HTTP Error ").toList ++ (Nat.repr code).toList

/-- Embedding of `scaffold.py::_download_and_extract` with its network action:
download the tarball into the tmpdir, extract it there, then
`move_template_to_target`, which re-checks `target.exists()` and refuses
to overwrite. -/
def download_and_extract (env : ScaffoldEnv) (target : Str) :
    List NetAction × Except Str Unit :=
  ([NetAction.download],
    match env.downloadFail with
    | some msg => .error (("Failed to download template: ").toList ++ msg)
    | none =>
      match (extract_tarball env.archiveMembers [tarballFileEntry]).2 with
      | .error e => .error e
      | .ok _ =>
        if env.targetExistsAtMove then
          .error (target ++ (" already exists").toList)
        else
          .ok ())

/-- Embedding of `scaffold.py::scaffold` (non-interactive), returning the network
actions performed and the outcome (`.error msg` = non-zero exit after
`_err(msg)`).  Control flow follows the source: target-existence check,
`gh` checks, tag resolution, download + extraction + move, init-module
load, `run_init`, git, GitHub setup. -/
def scaffold (env : ScaffoldEnv) (target : Str)
    (templateVersion : Option Str) (github : Bool)
    (githubOwner : Option Str) : List NetAction × Except Str Unit :=
  if env.targetExists then ([], .error (target ++ (" already exists").toList))
  else
    match ghGate github env githubOwner with
    | .error e => ([], .error e)
    | .ok owner =>
      let tr := resolveTag env templateVersion
      match tr.2 with
      | .error (HttpFail.http code) =>
        (tr.1, .error
          (if code = 403 then rateLimitMsg
           else ("GitHub API error: ").toList ++ renderHttpCode code))
      | .error (HttpFail.url reason) =>
        (tr.1, .error (("Network error: ").toList ++ reason))
      | .ok _tag =>
        let de := download_and_extract env target
        match de.2 with
        | .error e => (tr.1 ++ de.1, .error e)
        | .ok _ =>
          if env.initLoadOk = false then
            (tr.1 ++ de.1, .error
              (("scripts/init.py not found in ").toList ++ target))
          else if env.initRunOk = false then
            (tr.1 ++ de.1, .error ("Project initialization failed").toList)
          else if env.gitInstalled = false then
            (tr.1 ++ de.1, .error
              ("git is not installed. Install from https://git-scm.com").toList)
          else if env.gitInitOk = false then
            (tr.1 ++ de.1, .error ("git init failed").toList)
          else if github ∧ owner ≠ none ∧ env.githubSetupOk = false then
            (tr.1 ++ de.1, .error ("GitHub setup failed").toList)
          else
            (tr.1 ++ de.1, .ok ())

/-- C5: if the target directory already exists when `scaffold` starts,
the run aborts with the "already exists" message and performs no network
action (the existence check precedes tag resolution and download); and
after a successful download and extraction the check is repeated when
relocating the extracted directory, refusing to overwrite a target that
exists by then. -/
theorem c5_target_exists_aborts :
    (∀ (env : ScaffoldEnv) (target : Str) (tv : Option Str) (github : Bool)
        (go : Option Str), env.targetExists = true →
      (scaffold env target tv github go).1 = [] ∧
        (scaffold env target tv github go).2 =
          .error (target ++ (" already exists").toList)) ∧
      ∀ (env : ScaffoldEnv) (target : Str), env.downloadFail = none →
        (∃ d, (extract_tarball env.archiveMembers [tarballFileEntry]).2 =
          .ok d) →
        env.targetExistsAtMove = true →
        (download_and_extract env target).2 =
          .error (target ++ (" already exists").toList) := by
  constructor
  · intro env target tv github go h
    simp [scaffold, h]
  · intro env target h1 h2 h3
    obtain ⟨d, hd⟩ := h2
    simp [download_and_extract, h1, hd, h3]

/-- Environment for the first half of the C5 witness: the target already
exists. -/
def c5EnvA : ScaffoldEnv :=
  { targetExists := true, ghInstalled := true, ghAuthed := true
  , detectedOwner := none, tagResult := .ok (("v1.0.0").toList)
  , downloadFail := none, archiveMembers := [], targetExistsAtMove := false
  , initLoadOk := true, initRunOk := true, gitInstalled := true
  , gitInitOk := true, githubSetupOk := true }

/-- Environment for the second half of the C5 witness: the target appears
between the start of the run and the move. -/
def c5EnvB : ScaffoldEnv :=
  { targetExists := false, ghInstalled := true, ghAuthed := true
  , detectedOwner := none, tagResult := .ok (("v1.0.0").toList)
  , downloadFail := none
  , archiveMembers := [⟨false, [("pkg").toList], true⟩]
  , targetExistsAtMove := true
  , initLoadOk := true, initRunOk := true, gitInstalled := true
  , gitInitOk := true, githubSetupOk := true }

/-- Witness for C5 at the concrete target `demo`. -/
theorem c5_target_exists_aborts_witness :
    (scaffold c5EnvA (("demo").toList) none false none).2 =
        .error ((("demo").toList) ++ (" already exists").toList) ∧
      (download_and_extract c5EnvB (("demo").toList)).2 =
        .error ((("demo").toList) ++ (" already exists").toList) :=
  ⟨(c5_target_exists_aborts.1 c5EnvA (("demo").toList) none false none
      rfl).2,
   c5_target_exists_aborts.2 c5EnvB (("demo").toList) rfl
     ⟨("pkg").toList, rfl⟩ rfl⟩

/-- C6: when the `releases/latest` lookup fails with an `HTTPError`,
`scaffold` aborts before any download is attempted; status 403 yields the
message naming the rate limit and suggesting `--template-version`, any
other status yields the generic "GitHub API error" message. -/
theorem c6_http_error_on_tag_lookup (env : ScaffoldEnv) (target : Str)
    (github : Bool) (go : Option Str) (code : Nat)
    (h1 : env.targetExists = false)
    (h2 : ∃ ow, ghGate github env go = .ok ow)
    (h3 : env.tagResult = .error (HttpFail.http code)) :
    (code = 403 →
      (scaffold env target none github go).2 = .error rateLimitMsg ∧
        containsSub (("rate limit").toList) rateLimitMsg = true ∧
        containsSub (("--template-version").toList) rateLimitMsg = true) ∧
      (code ≠ 403 →
        (scaffold env target none github go).2 =
          .error ((("GitHub API error: ").toList) ++ renderHttpCode code)) ∧
      NetAction.download ∉ (scaffold env target none github go).1 := by
  obtain ⟨ow, how⟩ := h2
  have hs : scaffold env target none github go =
      ([NetAction.apiLatestTag],
        .error (if code = 403 then rateLimitMsg
          else ("GitHub API error: ").toList ++ renderHttpCode code)) := by
    simp [scaffold, h1, how, resolveTag, h3]
  refine ⟨fun hc => ?_, fun hc => ?_, ?_⟩
  · rw [hs]
    exact ⟨by simp [hc], by decide, by decide⟩
  · rw [hs]
    simp [hc]
  · rw [hs]
    simp

/-- Environment for the C6 witness: the tag lookup is rate limited. -/
def c6Env : ScaffoldEnv :=
  { targetExists := false, ghInstalled := true, ghAuthed := true
  , detectedOwner := none
  , tagResult := .error (HttpFail.http 403)
  , downloadFail := none, archiveMembers := [], targetExistsAtMove := false
  , initLoadOk := true, initRunOk := true, gitInstalled := true
  , gitInitOk := true, githubSetupOk := true }

/-- Witness for C6 at HTTP 403 on the tag lookup. -/
theorem c6_http_error_on_tag_lookup_witness :
    (scaffold c6Env (("demo").toList) none false none).2 =
      .error rateLimitMsg :=
  ((c6_http_error_on_tag_lookup c6Env (("demo").toList) false none 403
      rfl ⟨none, rfl⟩ rfl).1 rfl).1

/-! ### C9 : license setup is skipped for `license = none` -/

/-- Embedding of `scripts/init.py::CLASSIFIER_MAP` (fixed literal dict). -/
def CLASSIFIER_MAP : List (Str × Str) :=
  [ (("MIT").toList, ("License :: OSI Approved :: MIT License").toList)
  , (("Apache-2.0").toList,
      ("License :: OSI Approved :: Apache Software License").toList)
  , (("BSD-2-Clause").toList,
      ("License :: OSI Approved :: BSD License").toList)
  , (("BSD-3-Clause").toList,
      ("License :: OSI Approved :: BSD License").toList)
  , (("GPL-2.0-only").toList,
      ("License :: OSI Approved :: GNU General Public License v2 (GPLv2)").toList)
  , (("GPL-3.0-only").toList,
      ("License :: OSI Approved :: GNU General Public License v3 (GPLv3)").toList)
  , (("LGPL-2.1-only").toList,
      ("License :: OSI Approved :: GNU Lesser General Public License v2 or later (LGPLv2+)").toList)
  , (("AGPL-3.0-only").toList,
      ("License :: OSI Approved :: GNU Affero General Public License v3").toList)
  , (("MPL-2.0").toList,
      ("License :: OSI Approved :: Mozilla Public License 2.0 (MPL 2.0)").toList)
  , (("Unlicense").toList,
      ("License :: OSI Approved :: The Unlicense (Unlicense)").toList)
  , (("BSL-1.0").toList,
      ("License :: OSI Approved :: Boost Software License 1.0 (BSL-1.0)").toList)
  , (("CC0-1.0").toList,
      ("License :: CC0 1.0 Universal (CC0 1.0) Public Domain Dedication").toList)
  , (("EPL-2.0").toList,
      ("License :: OSI Approved :: Eclipse Public License 2.0 (EPL-2.0)").toList) ]

/-- Embedding of `scripts/init.py::classifier_for_spdx`. -/
def classifier_for_spdx (spdx_id : Str) : Option Str :=
  lookupAssoc CLASSIFIER_MAP spdx_id

/-- The files the license step can touch: the optional `LICENSE`,
`LICENSE_HEADER`, `.pre-commit-config.yaml`, `pyproject.toml` and
`recipe/meta.yaml` contents, and the contents of the `.py` files under the
package directory and under `tests/`. -/
structure LicenseState where
  licenseFile : Option Str
  licenseHeader : Option Str
  preCommit : Option Str
  pyproject : Option Str
  metaYaml : Option Str
  pkgPyFiles : List Str
  testPyFiles : List Str
deriving DecidableEq

/-- Embedding of `replace_in_file` on a file that may not exist. -/
def replaceOpt (pat rep : Str) : Option Str → Option Str
  | none => none
  | some s => some (replaceList pat rep s)

/-- The Apache classifier line removed or replaced by
`setup_license_metadata`. -/
def apacheClassifier : Str :=
  ("License :: OSI Approved :: Apache Software License").toList

/-- Drop the lines containing the stale Apache classifier
(`content.split('\n')`, filter, `'\n'.join`). -/
def stripApacheLines : Option Str → Option Str
  | none => none
  | some s =>
    some (List.intercalate ['\n']
      ((s.splitOn '\n').filter
        (fun ln => containsSub apacheClassifier ln = false)))

/-- Embedding of `scripts/init.py::setup_license_metadata`: rewrite the license line
and classifier of `pyproject.toml`, the license line of `meta.yaml`, and
(re)write `LICENSE_HEADER`. -/
def setup_license_metadata (st : LicenseState) (spdx_id author year : Str) :
    LicenseState :=
  let py1 := replaceOpt ("license = \x7btext = \"Apache-2.0\"\x7d").toList
    (("license = \x7btext = \"").toList ++ spdx_id ++ ("\"\x7d").toList)
    st.pyproject
  let py2 :=
    match classifier_for_spdx spdx_id with
    | some classifier => replaceOpt apacheClassifier classifier py1
    | none => stripApacheLines py1
  let my := replaceOpt ("license: Apache-2.0").toList
    (("license: ").toList ++ spdx_id) st.metaYaml
  { st with
    pyproject := py2
    metaYaml := my
    licenseHeader := some (("Copyright ").toList ++ year ++ [' '] ++ author
      ++ ("\nSPDX-License-Identifier: ").toList ++ spdx_id ++ ['\n']) }

/-- The hook block inserted by `add_insert_license_hook`. -/
def hookBlock : Str :=
  ("  - repo: https://github.com/Lucas-C/pre-commit-hooks\n    rev: v1.5.5\n    hooks:\n      - id: insert-license\n        files: \\.py$\n        args:\n          - --license-filepath=LICENSE_HEADER\n          - --comment-style=#\n          - --detect-license-in-X-top-lines=5\n").toList

/-- The marker line the hook block is inserted before. -/
def hookMarker : Str := ("  # Keep rev in sync with ruff version").toList

/-- Embedding of `scripts/init.py::add_insert_license_hook`: insert the insert-license
hook block before the marker in `.pre-commit-config.yaml` (no-op when the
file does not exist). -/
def add_insert_license_hook (st : LicenseState) : LicenseState :=
  match st.preCommit with
  | none => st
  | some content =>
    { st with
      preCommit := some (replaceList hookMarker (hookBlock ++ hookMarker)
        content) }

/-- Prepend the two SPDX header lines to one `.py` file's content,
preserving a shebang first line (`apply_license_headers` inner loop). -/
def addHeader (h1 h2 content : Str) : Str :=
  let lines := content.splitOn '\n'
  List.intercalate ['\n']
    (match lines with
     | l0 :: rest =>
       if isPre (("#!").toList) l0 then l0 :: h1 :: h2 :: rest
       else h1 :: h2 :: l0 :: rest
     | [] => [h1, h2])

/-- Embedding of `scripts/init.py::apply_license_headers`: add the copyright/SPDX
header lines to every `.py` file under the package directory and under
`tests/`. -/
def apply_license_headers (st : LicenseState) (author spdx_id year : Str) :
    LicenseState :=
  let h1 := ("# Copyright ").toList ++ year ++ [' '] ++ author
  let h2 := ("# SPDX-License-Identifier: ").toList ++ spdx_id
  { st with
    pkgPyFiles := st.pkgPyFiles.map (addHeader h1 h2)
    testPyFiles := st.testPyFiles.map (addHeader h1 h2) }

/-- Embedding of `scripts/init.py::_setup_license_if_needed`: skipped entirely when
`config.license_key.lower() == 'none'`; otherwise write `LICENSE` when the
GitHub API returned a body (`fetchedBody`), then `setup_license_metadata`,
`add_insert_license_hook` and `apply_license_headers`. -/
def setup_license_if_needed (st : LicenseState) (cfg : ProjectConfig)
    (fetchedBody : Option Str) (year : Str) : LicenseState :=
  if pyLower cfg.license_key = ("none").toList then st
  else
    let spdx := spdx_id_for_key cfg.license_key
    let st1 :=
      match fetchedBody with
      | some body => { st with licenseFile := some (body ++ ['\n']) }
      | none => st
    let st2 := setup_license_metadata st1 spdx cfg.author year
    let st3 := add_insert_license_hook st2
    apply_license_headers st3 cfg.author spdx year

/-- C9: when the license selection is `none`, the license step leaves the
whole state unchanged — in particular no `LICENSE_HEADER` is created, the
pre-commit configuration gains no hook block, and no `.py` file gains an
SPDX header line. -/
theorem c9_license_none_skips (st : LicenseState) (cfg : ProjectConfig)
    (fetchedBody : Option Str) (year : Str)
    (h : pyLower cfg.license_key = ("none").toList) :
    setup_license_if_needed st cfg fetchedBody year = st ∧
      (setup_license_if_needed st cfg fetchedBody year).licenseHeader =
        st.licenseHeader ∧
      (setup_license_if_needed st cfg fetchedBody year).preCommit =
        st.preCommit ∧
      (setup_license_if_needed st cfg fetchedBody year).pkgPyFiles =
        st.pkgPyFiles ∧
      (setup_license_if_needed st cfg fetchedBody year).testPyFiles =
        st.testPyFiles := by
  have he : setup_license_if_needed st cfg fetchedBody year = st := by
    rw [setup_license_if_needed.eq_def, if_pos h]
  exact ⟨he, by rw [he], by rw [he], by rw [he], by rw [he]⟩

/-- State for the C9 witness: a template tree before license setup. -/
def c9State : LicenseState :=
  { licenseFile := some ("Apache License body").toList
  , licenseHeader := none
  , preCommit := some (hookMarker ++ ['\n'])
  , pyproject := some ("license = \x7btext = \"Apache-2.0\"\x7d").toList
  , metaYaml := some ("license: Apache-2.0").toList
  , pkgPyFiles := [("def main() -> None:\n    pass\n").toList]
  , testPyFiles := [("def test_main() -> None:\n    pass\n").toList] }

/-- Config for the C9 witness, with license selection `none`. -/
def c9Cfg : ProjectConfig :=
  { name := ("myproj").toList
  , author := ("Jane Smith").toList
  , email := ("jane@example.com").toList
  , github_owner := ("alice").toList
  , description := ("A cool package.").toList
  , license_key := ("none").toList
  , enable_pypi := false }

/-- Witness for C9 at a concrete state and config. -/
theorem c9_license_none_skips_witness :
    setup_license_if_needed c9State c9Cfg none (("2025").toList) = c9State ∧
      (setup_license_if_needed c9State c9Cfg none
          (("2025").toList)).licenseHeader = c9State.licenseHeader ∧
      (setup_license_if_needed c9State c9Cfg none
          (("2025").toList)).preCommit = c9State.preCommit ∧
      (setup_license_if_needed c9State c9Cfg none
          (("2025").toList)).pkgPyFiles = c9State.pkgPyFiles ∧
      (setup_license_if_needed c9State c9Cfg none
          (("2025").toList)).testPyFiles = c9State.testPyFiles :=
  c9_license_none_skips c9State c9Cfg none (("2025").toList) (by decide)

end UvTemplate
